import Mathlib

/-!
Verification of the OdooBench core against its specification.

The definitions below are a shallow embedding of the two source files that
implement the core (`src/odoobench/core/executor.py` and the GUI driver
`src/odoobench/gui/instance_window.py`).  External effects (process spawning,
SSH transport, the filesystem, dialog answers) are represented by explicit
outcome types, so every Python code path becomes a total Lean function on
those outcomes.  The backup/restore engine itself
(`odoobench/core/backup_restore.py`) is not present in the source tree; the
few facts needed about it are modelled from the specification and are marked
as such in their doc comments.
-/

namespace OdooBench

/-! ## Execution abstraction: run_command (executor.py) -/

/-- Outcome of `subprocess.run(cmd, shell=True, capture_output=True, text=True,
timeout=timeout)` inside `LocalExecutor.run_command` (executor.py lines
129-143): the process completed with some stdout/stderr/returncode, or
`subprocess.TimeoutExpired` was raised, or some other exception (e.g. the
process could not be spawned) was raised. -/
inductive SpawnOutcome
  | completed (stdout stderr : String) (code : Int)
  | timedOut
  | spawnError (msg : String)
deriving DecidableEq

/-- Embedding of `LocalExecutor.run_command` (executor.py lines 129-143).
Every outcome is mapped to a returned triple: the `try/except` handlers turn
both exception cases into ordinary return values, so the method never raises.
A completed command returns its own stdout/stderr/exit status unchanged;
`TimeoutExpired` returns the fixed message with exit code -1; any other
exception returns its string rendering with exit code -1. -/
def local_run_command : SpawnOutcome → String × String × Int
  | .completed out err c => (out, err, c)
  | .timedOut => ("", "Command timed out", -1)
  | .spawnError msg => ("", msg, -1)

/-- Outcome of the paramiko calls inside `SSHExecutor.run_command`
(executor.py lines 282-294): either `exec_command` ran and
`recv_exit_status`/`read` delivered the command result, or some exception
(connection failure, authentication failure, channel timeout) was raised. -/
inductive SSHRunOutcome
  | completed (stdout stderr : String) (code : Int)
  | transportError (msg : String)
deriving DecidableEq

/-- Embedding of `SSHExecutor.run_command` (executor.py lines 282-294): a
completed remote command returns its own stdout/stderr/exit status; any
exception is caught and returned as the triple with the fixed exit code -1,
so the method never raises. -/
def ssh_run_command : SSHRunOutcome → String × String × Int
  | .completed out err c => (out, err, c)
  | .transportError msg => ("", msg, -1)

/-! ## Execution abstraction: file_exists / dir_exists (executor.py) -/

/-- Result of probing a filesystem path, as seen by `os.path.isfile` /
`os.path.isdir`: the path is a regular file, a directory, absent, or the
probe failed at the OS level (permission denied, I/O error). -/
inductive FsProbe
  | isFile
  | isDir
  | absent
  | accessError
deriving DecidableEq

/-- Behaviour of the Python library call `os.path.isfile`: true exactly for an
existing regular file; a missing path and OS-level errors both yield false
and the call never raises. -/
def os_isfile : FsProbe → Bool
  | .isFile => true
  | _ => false

/-- Behaviour of the Python library call `os.path.isdir`, analogous to
`os_isfile`. -/
def os_isdir : FsProbe → Bool
  | .isDir => true
  | _ => false

/-- Embedding of `LocalExecutor.file_exists` (executor.py lines 162-164):
directly `os.path.isfile(path)`. -/
def local_file_exists (p : FsProbe) : Bool := os_isfile p

/-- Embedding of `LocalExecutor.dir_exists` (executor.py lines 166-168):
directly `os.path.isdir(path)`. -/
def local_dir_exists (p : FsProbe) : Bool := os_isdir p

/-- Python `str.strip()` with no argument: remove leading and trailing
whitespace characters. -/
def pyStrip (s : String) : String :=
  ⟨((s.data.dropWhile Char.isWhitespace).reverse.dropWhile Char.isWhitespace).reverse⟩

/-- Evaluation fact about the remote existence probes: the empty stdout of a
failed `run_command` does not carry the marker 1. -/
theorem empty_stdout_not_marker : (pyStrip "" == "1") = false := by decide

/-- Embedding of `SSHExecutor.file_exists` (executor.py lines 315-318): runs
the remote shell test that echoes 1 or 0 and compares the stripped stdout of
`run_command` with the string 1; the exit code and stderr are ignored. -/
def ssh_file_exists (o : SSHRunOutcome) : Bool :=
  pyStrip (ssh_run_command o).1 == "1"

/-- Embedding of `SSHExecutor.dir_exists` (executor.py lines 320-323), same
shape as `ssh_file_exists` with a directory test in the remote command. -/
def ssh_dir_exists (o : SSHRunOutcome) : Bool :=
  pyStrip (ssh_run_command o).1 == "1"

/-! ## create_executor factory (executor.py lines 403-431) -/

/-- The connection configuration dictionary consumed by `create_executor`.
Each field models one key that the factory reads with `.get`; `none` means
the key is absent.  String-valued keys may also be present but empty, which
Python treats as falsy. -/
structure ConnectionConfig where
  is_local : Option Bool
  host : Option String
  username : Option String
  port : Option Int
  password : Option String
  key_path : Option String
  ssh_key_path : Option String
deriving DecidableEq

/-- Python truthiness test `or` on two optional strings:
`a or b` yields `b` whenever `a` is `None` or the empty string. -/
def pyOrStr (a b : Option String) : Option String :=
  match a with
  | some s => if s = "" then b else some s
  | none => b

/-- The value returned by `create_executor`: either a `LocalExecutor` (which
has no constructor arguments) or an `SSHExecutor` carrying the constructor
arguments passed at executor.py lines 425-431. -/
inductive Executor
  | localExec
  | sshExec (host : String) (port : Int) (username : Option String)
      (password : Option String) (key_path : Option String)
deriving DecidableEq

/-- Embedding of `create_executor` (executor.py lines 403-431):
`is_local = config.get('is_local', False)`, `host = config.get('host',
'localhost')`, `username = config.get('username')`; local when explicitly
local or when the host is localhost/127.0.0.1 and the username is falsy
(absent or empty); otherwise an `SSHExecutor` with port defaulting to 22 and
the key path taken from `key_path or ssh_key_path` (Python `or`). -/
def create_executor (cfg : ConnectionConfig) : Executor :=
  if cfg.is_local.getD false = true ∨
      ((cfg.host.getD "localhost" = "localhost" ∨ cfg.host.getD "localhost" = "127.0.0.1")
        ∧ (cfg.username.getD "").isEmpty = true) then
    .localExec
  else
    .sshExec (cfg.host.getD "localhost") (cfg.port.getD 22) cfg.username cfg.password
      (pyOrStr cfg.key_path cfg.ssh_key_path)

/-! ## Follow (tail -f) subscriptions (executor.py)

`LocalExecutor.tail_file_follow` (lines 177-205) spawns the external process
`tail -f PATH` and a reader thread that, while the shared `_tail_running`
flag is set, reads each line of the process output and hands it to the
callback.  `SSHExecutor.tail_file_follow` (lines 332-367) runs the same
`tail -f PATH` command on a remote channel and splits the received byte
stream on newlines.  Neither call stops a previously started follow: each
call sets the shared flag to true and appends a fresh reader thread. -/

/-- Output line sequence of the external `tail -f PATH` process used by both
executors: POSIX/GNU `tail` with `-f` and no `-n` option first prints the
last 10 lines already in the file, then each line appended afterwards. -/
def tailDashF (existing appended : List String) : List String :=
  existing.drop (existing.length - 10) ++ appended

/-- Lines handed to the callback of one reader thread of
`LocalExecutor.tail_file_follow`: while the shared running flag holds, every
line of the `tail -f` output is delivered (executor.py lines 193-196); with
the flag cleared the loop exits and nothing is delivered. -/
def local_follow_delivered (running : Bool) (existing appended : List String) : List String :=
  if running then tailDashF existing appended else []

/-- Newline-splitting loop of `SSHExecutor.tail_file_follow` (executor.py
lines 345-352): characters received on the channel are accumulated in a
buffer and a callback invocation is made for each complete line; the first
argument is the reversed pending buffer, the second the remaining input. -/
def sshEmit : List Char → List Char → List (List Char)
  | _, [] => []
  | buf, c :: rest =>
    if c = '\n' then buf.reverse :: sshEmit [] rest else sshEmit (c :: buf) rest

/-- Byte stream produced by a line-oriented process: each output line
followed by a newline character. -/
def encodeLines (ls : List (List Char)) : List Char :=
  ls.foldr (fun l acc => l ++ '\n' :: acc) []

/-- One session of `LocalExecutor`: the shared `_tail_running` flag, the
callbacks of the reader threads spawned so far (in start order), and the
`_tail_process` attribute (absent before the first follow). -/
structure LocalSession where
  tail_running : Bool
  threads : List Nat
  tail_process : Option Nat
deriving DecidableEq

/-- State change of `LocalExecutor.tail_file_follow` (executor.py lines
177-205): set the shared running flag, spawn a new `tail -f` process and a
new reader thread for the given callback.  The previously spawned threads
are not touched and keep checking the same shared flag. -/
def local_tail_file_follow (s : LocalSession) (cb : Nat) (pid : Nat) : LocalSession :=
  { tail_running := true, threads := s.threads ++ [cb], tail_process := some pid }

/-- Callbacks that receive a line appended to the followed file: every reader
thread spawned so far delivers to its own callback as long as the shared
running flag is set (each loop iteration re-reads `self._tail_running`). -/
def local_deliver (s : LocalSession) : List Nat :=
  if s.tail_running then s.threads else []

/-- Embedding of `LocalExecutor.stop_tail` (executor.py lines 207-214):
clear the running flag and terminate the last spawned process; the
`terminate` call sits in a `try/except pass`, so a failing terminate (the
Boolean argument) has no effect on the state and the method never raises.
The `_tail_process` attribute itself is not cleared by the source. -/
def local_stop_tail (_terminateFails : Bool) (s : LocalSession) : LocalSession :=
  { s with tail_running := false }

/-- Embedding of `LocalExecutor.disconnect` (executor.py lines 220-222):
nothing to release locally, it only calls `stop_tail`. -/
def local_disconnect (terminateFails : Bool) (s : LocalSession) : LocalSession :=
  local_stop_tail terminateFails s

/-- One session of `SSHExecutor`: the client (with its transport-active
probe), the SFTP sub-channel, and the follow state as in `LocalSession`
plus the `_tail_channel` attribute. -/
structure SSHSession where
  client_active : Option Bool
  sftp_open : Bool
  tail_running : Bool
  threads : List Nat
  tail_channel : Option Nat
deriving DecidableEq

/-- State change of `SSHExecutor.tail_file_follow` (executor.py lines
332-367): set the shared running flag, open a fresh channel running
`tail -f`, spawn a new reader thread; previous threads are not stopped. -/
def ssh_tail_file_follow (s : SSHSession) (cb : Nat) (ch : Nat) : SSHSession :=
  { s with tail_running := true, threads := s.threads ++ [cb], tail_channel := some ch }

/-- Embedding of `SSHExecutor.stop_tail` (executor.py lines 369-377): clear
the running flag; when a channel is set, close it inside `try/except pass`
(a failing close, the Boolean argument, is swallowed) and reset the
attribute to None. -/
def ssh_stop_tail (_closeFails : Bool) (s : SSHSession) : SSHSession :=
  match s.tail_channel with
  | some _ => { s with tail_running := false, tail_channel := none }
  | none => { s with tail_running := false }

/-- Embedding of `SSHExecutor.disconnect` (executor.py lines 386-400): first
`stop_tail`, then close and clear the SFTP client and the SSH client, each
close wrapped in `try/except pass` so the method never raises. -/
def ssh_disconnect (chanCloseFails _sftpCloseFails _clientCloseFails : Bool)
    (s : SSHSession) : SSHSession :=
  let s1 := ssh_stop_tail chanCloseFails s
  let s2 := if s1.sftp_open then { s1 with sftp_open := false } else s1
  if s2.client_active.isSome then { s2 with client_active := none } else s2

/-- Embedding of `SSHExecutor.is_connected` (executor.py lines 379-384):
false without a client, else the transport-active probe. -/
def ssh_is_connected (s : SSHSession) : Bool :=
  match s.client_active with
  | some active => active
  | none => false

/-! ## GUI operation pipelines (gui/instance_window.py)

The three operations Backup, Restore and Copy (backup-and-restore) are
driven by `InstanceWindow._run_backup`, `_run_restore` and
`_run_backup_restore`.  Each runs a sequence of validation checks and
confirmation dialogs and, when none of them returns early, starts a worker
that calls into the `OdooBench` engine.  The checks are embedded below as
functions on a record of the values they read; dialog answers are explicit
Boolean fields. -/

/-- Result of the validation phase of an operation handler: either the
handler falls through to spawning the worker, or it returns early with the
message box shown. -/
inductive GateResult
  | proceed
  | rejected (reason : String)
deriving DecidableEq

/-- The values read by the validation phase of `InstanceWindow._run_restore`
(instance_window.py lines 1923-1976).  The instance record also carries the
`allow_restore` flag persisted by the connection store; it is included here
to express whether the check depends on it. -/
structure RestoreRequest where
  backup_file : String
  backup_file_on_disk : Bool
  db_name : Option String
  restore_type : String
  is_production : Bool
  allow_restore : Bool
  confirm_overwrite : Bool
  confirm_final : Bool
deriving DecidableEq

/-- Embedding of the validation phase of `InstanceWindow._run_restore`
(instance_window.py lines 1932-1975), check for check in source order: empty
backup-file selection, missing backup file on disk, missing database name
(unless a filestore-only restore), then for a production target two
confirmation dialogs, otherwise one.  No check reads `allow_restore`. -/
def run_restore_gate (r : RestoreRequest) : GateResult :=
  if r.backup_file = "" then .rejected "no backup file selected"
  else if r.backup_file_on_disk = false then .rejected "backup file not found"
  else if (r.db_name.getD "").isEmpty = true ∧ r.restore_type ≠ "filestore_only" then
    .rejected "no database specified"
  else if r.is_production = true then
    if r.confirm_overwrite = false then .rejected "production confirmation declined"
    else if r.confirm_final = false then .rejected "final confirmation declined"
    else .proceed
  else if r.confirm_overwrite = false then .rejected "confirmation declined"
  else .proceed

/-- Commands issued against the target database by a database restore.
Modelled from the spec: `OdooBench.restore` lives in
`odoobench/core/backup_restore.py`, which is not in the source tree; spec
section 4.3 step 2 describes the database restore as drop/recreate of the
target database followed by replaying the dump — all mutating commands run
through the Execution Abstraction. -/
inductive DbCommand
  | dropDatabase (db : String)
  | createDatabase (db : String)
  | replayDump (db : String)
deriving DecidableEq

/-- Modelled from the spec: the mutating command sequence of a database
restore against target database `db` (spec section 4.3 step 2). -/
def restore_mutating_commands (db : String) : List DbCommand :=
  [DbCommand.dropDatabase db, DbCommand.createDatabase db, DbCommand.replayDump db]

/-- Mutating commands a call to `_run_restore` lets through to the target:
none when the validation phase returns early, the full restore sequence once
the worker calls `bench.restore` (instance_window.py line 2046). -/
def run_restore_pipeline (r : RestoreRequest) : List DbCommand :=
  match run_restore_gate r with
  | .proceed => restore_mutating_commands (r.db_name.getD "")
  | .rejected _ => []

/-- The values read by the validation phase of
`InstanceWindow._run_backup_restore` (instance_window.py lines 2292-2341). -/
structure CopyRequest where
  dest_selection : String
  dest_in_map : Bool
  dest_found : Bool
  source_db : Option String
  dest_db : Option String
  br_type : String
  dest_allow_restore : Bool
  dest_is_production : Bool
  confirm_production : Bool
  confirm_standard : Bool
deriving DecidableEq

/-- Embedding of the validation phase of `_run_backup_restore`
(instance_window.py lines 2292-2341) in source order; the destination must
be explicitly restore-allowed (line 2318) before the worker is spawned. -/
def run_copy_gate (q : CopyRequest) : GateResult :=
  if q.dest_selection = "" then .rejected "no destination selected"
  else if q.dest_in_map = false then .rejected "invalid destination selection"
  else if q.dest_found = false then .rejected "destination connection not found"
  else if (q.source_db.getD "").isEmpty = true ∧ q.br_type ≠ "filestore_only" then
    .rejected "source has no database"
  else if (q.dest_db.getD "").isEmpty = true ∧ q.br_type ≠ "filestore_only" then
    .rejected "destination has no database"
  else if q.dest_allow_restore = false then
    .rejected "restore is not enabled for the destination connection"
  else if q.dest_is_production = true ∧ q.confirm_production = false then
    .rejected "production confirmation declined"
  else if q.confirm_standard = false then .rejected "confirmation declined"
  else .proceed

/-- Mutating commands a call to `_run_backup_restore` lets through to the
destination: none when the validation phase returns early, the restore
sequence once the worker calls `bench.backup_and_restore` (line 2440). -/
def run_copy_pipeline (q : CopyRequest) : List DbCommand :=
  match run_copy_gate q with
  | .proceed => restore_mutating_commands (q.dest_db.getD "")
  | .rejected _ => []

/-! ## The Copy worker body (do_backup_restore, instance_window.py 2364-2523) -/

/-- Result of the call `bench.backup_and_restore(source_config, dest_config)`
at instance_window.py line 2440, as observed by the caller: either the call
returns the backup artifact path normally, or it raises and the exception
message reaches the `except` handler.  Modelled from the spec:
`OdooBench.backup_and_restore` lives in `odoobench/core/backup_restore.py`,
which is not in the source tree; spec sections 4.4 and 7 state that a
failing leg surfaces as a failure of the whole operation (the caller's
single failure channel), which in this Python caller is the raised
exception. -/
inductive CoreResult
  | ret (path : String)
  | raised (msg : String)
deriving DecidableEq

/-- One line appended to `log_lines` by `capture_log` in the Copy worker.
Lines are represented by what the source interpolates into them: the fixed
informational lines, the operation-failed line carrying the exception
message, the backup-preserved line carrying the artifact path (line 2486),
the success banner, and the total-time line. -/
inductive LogLine
  | info (text : String)
  | operationFailed (msg : String)
  | backupPreservedAt (path : String)
  | operationSucceeded
  | totalTime (secs : Nat)
deriving DecidableEq

/-- One call to `instance_manager.save_operation_log` made by the Copy
worker: the instance it is recorded against (source or destination id), the
status string, and the `backup_file` argument. -/
structure SavedLog where
  target : String
  status : String
  backup_file : Option String
deriving DecidableEq

/-- Observable result of one run of the Copy worker: the captured log lines
and the operation-log records persisted. -/
structure CopyRun where
  log_lines : List LogLine
  saved : List SavedLog
deriving DecidableEq

/-- Embedding of `do_backup_restore` (instance_window.py lines 2364-2517).
The local `backup_path` starts as None (line 2366) and is assigned only by
the normal return of `bench.backup_and_restore` (line 2440).  On success the
worker logs the success banner and elapsed time and persists one success
record for the source and one for the destination (lines 2453-2469).  When
the call raises, control reaches the `except` handler with `backup_path`
still None — the assignment never ran — so the `if backup_path:` test at
line 2485 is false and no backup-preserved line is logged; one failed record
is persisted, for the source only (lines 2499-2505). -/
def do_backup_restore (headerLines : List LogLine) (core : CoreResult)
    (elapsed : Nat) : CopyRun :=
  let backup_path : Option String := none
  match core with
  | .ret p =>
    let backup_path := some p
    { log_lines := headerLines ++ [LogLine.operationSucceeded, LogLine.totalTime elapsed],
      saved := [{ target := "source", status := "success", backup_file := backup_path },
                { target := "dest", status := "success", backup_file := backup_path }] }
  | .raised msg =>
    { log_lines := headerLines ++ [LogLine.operationFailed msg] ++
        (match backup_path with
         | some p => [LogLine.backupPreservedAt p]
         | none => []) ++ [LogLine.totalTime elapsed],
      saved := [{ target := "source", status := "failed", backup_file := backup_path }] }

/-- Scanner for the failure report: does any captured line carry a preserved
backup path? -/
def mentionsPreservedBackup (ls : List LogLine) : Bool :=
  ls.any fun l =>
    match l with
    | LogLine.backupPreservedAt _ => true
    | _ => false

/-- Outcome of `bench.backup_and_restore` when the backup leg succeeded and
the restore leg failed.  Modelled from the spec: section 4.4 — the artifact
produced by the backup leg is explicitly preserved on local disk (nothing
deletes it) while the restore failure propagates to the caller. -/
structure CoreOutcome where
  result : CoreResult
  artifacts_on_disk : List String
deriving DecidableEq

/-- Modelled from the spec: a Copy whose backup leg produced the artifact at
`artifact` and whose restore leg then failed with `errMsg` — the artifact
stays on local disk and the exception propagates (spec section 4.4). -/
def backup_then_restore_fails (artifact errMsg : String) : CoreOutcome :=
  { result := CoreResult.raised errMsg, artifacts_on_disk := [artifact] }

/-! ## The Backup validation phase (_run_backup, instance_window.py 1564-1592) -/

/-- Result of the validation phase of `_run_backup`: either the worker is
started with an effective backup type, or the handler returns early. -/
inductive BackupGate
  | run (effective_type : String)
  | noDatabase
  | declinedDegrade
  | mkdirFailed
deriving DecidableEq

/-- The values read by the validation phase of `_run_backup`. -/
structure BackupRequest where
  db_name : Option String
  backup_type : String
  filestore_path : Option String
  confirm_degrade : Bool
  backup_dir_on_disk : Bool
  mkdir_ok : Bool
deriving DecidableEq

/-- The backup-directory step of `_run_backup` (instance_window.py lines
1586-1592): create the directory when absent, aborting on failure, then run
the worker with the effective backup type. -/
def finish_backup_gate (r : BackupRequest) (t : String) : BackupGate :=
  if r.backup_dir_on_disk = true then .run t
  else if r.mkdir_ok = true then .run t
  else .mkdirFailed

/-- Embedding of the validation phase of `_run_backup` (instance_window.py
lines 1573-1592): a missing database name aborts; when the backup type is
not database-only and no filestore path is configured, a warning dialog asks
whether to continue with a database-only backup — declining returns early
with no backup run, accepting rewrites the backup type to db_only; then the
backup directory is created if needed. -/
def run_backup_gate (r : BackupRequest) : BackupGate :=
  if (r.db_name.getD "").isEmpty = true then .noDatabase
  else if r.backup_type ≠ "db_only" ∧ (r.filestore_path.getD "").isEmpty = true then
    if r.confirm_degrade = true then finish_backup_gate r "db_only"
    else .declinedDegrade
  else finish_backup_gate r r.backup_type

end OdooBench

namespace OdooBench

/-! ## Claim theorems for the executor layer -/

/-- Claim C3: on both the local and the SSH executor, `run_command` never
raises (every spawn outcome is mapped to a returned triple — the match in
the definitions is exhaustive over the outcome type); a command that merely
fails returns its own stdout/stderr/exit status, which for a completed
command (exit status non-negative, as produced by a shell or by paramiko's
`recv_exit_status`) is never the distinguished value -1; and exactly the
infrastructure failures (timeout, spawn error, transport error) yield exit
code -1 together with an explanatory stderr. -/
theorem run_command_failure_model (out err msg : String) (c : Int) (hc : 0 ≤ c) :
    local_run_command (.completed out err c) = (out, err, c)
    ∧ ssh_run_command (.completed out err c) = (out, err, c)
    ∧ (local_run_command (.completed out err c)).2.2 ≠ -1
    ∧ (ssh_run_command (.completed out err c)).2.2 ≠ -1
    ∧ local_run_command .timedOut = ("", "Command timed out", -1)
    ∧ local_run_command (.spawnError msg) = ("", msg, -1)
    ∧ ssh_run_command (.transportError msg) = ("", msg, -1) := by
  refine ⟨rfl, rfl, ?_, ?_, rfl, rfl, rfl⟩ <;>
    · show c ≠ -1
      omega

/-- Witness for `run_command_failure_model` at a concrete failing command
(exit status 2) and a concrete infrastructure failure message. -/
theorem run_command_failure_model_witness :
    local_run_command (.completed "o" "e" 2) = ("o", "e", 2)
    ∧ local_run_command (.spawnError "boom") = ("", "boom", -1) :=
  ⟨(run_command_failure_model "o" "e" "boom" 2 (by decide)).1,
   (run_command_failure_model "o" "e" "boom" 2 (by decide)).2.2.2.2.2.1⟩

/-- Claim C9: `file_exists` and `dir_exists` on both executor variants are
total boolean functions (never raise: every probe or transport outcome is
mapped to a `Bool`); OS-level access errors and absent paths give false on
the local variant; transport failures and timeouts give false on the SSH
variant (the stdout of a failed `run_command` is empty, which is not the
marker 1); and a completed remote probe is decided purely by the stripped
stdout marker. -/
theorem file_probes_never_raise (p : FsProbe) (msg out err : String) (c : Int) :
    local_file_exists .accessError = false
    ∧ local_dir_exists .accessError = false
    ∧ local_file_exists .absent = false
    ∧ (local_file_exists p = true ↔ p = .isFile)
    ∧ (local_dir_exists p = true ↔ p = .isDir)
    ∧ ssh_file_exists (.transportError msg) = false
    ∧ ssh_dir_exists (.transportError msg) = false
    ∧ ssh_file_exists (.completed out err c) = (pyStrip out == "1") := by
  refine ⟨rfl, rfl, rfl, ?_, ?_, empty_stdout_not_marker, empty_stdout_not_marker, rfl⟩ <;>
    cases p <;> simp [local_file_exists, local_dir_exists, os_isfile, os_isdir]

/-- Witness for `file_probes_never_raise`: concrete probes on an existing
file and on a transport failure. -/
theorem file_probes_never_raise_witness :
    local_file_exists .isFile = true ∧ ssh_file_exists (.transportError "down") = false :=
  ⟨(file_probes_never_raise .isFile "down" "" "" 0).2.2.2.1.mpr rfl,
   (file_probes_never_raise .isFile "down" "" "" 0).2.2.2.2.2.1⟩

/-- Claim C10: `create_executor` returns a `LocalExecutor` exactly when the
config sets `is_local` true, or when the effective host (defaulting to
localhost) is localhost or 127.0.0.1 and no (non-empty) username is given;
in every other case it returns an `SSHExecutor` carrying the given host, the
port defaulting to 22, the username, the password, and the key path taken
from `key_path` or, when that is falsy, `ssh_key_path`. -/
theorem create_executor_spec (cfg : ConnectionConfig) :
    (create_executor cfg = .localExec ↔
      cfg.is_local.getD false = true ∨
        ((cfg.host.getD "localhost" = "localhost" ∨ cfg.host.getD "localhost" = "127.0.0.1")
          ∧ (cfg.username.getD "").isEmpty = true))
    ∧ (create_executor cfg ≠ .localExec →
        create_executor cfg = .sshExec (cfg.host.getD "localhost") (cfg.port.getD 22)
          cfg.username cfg.password (pyOrStr cfg.key_path cfg.ssh_key_path)) := by
  constructor
  · unfold create_executor
    split
    · simp only [true_iff]
      assumption
    · simp only [reduceCtorEq, false_iff]
      assumption
  · intro h
    by_cases hc : cfg.is_local.getD false = true ∨
        ((cfg.host.getD "localhost" = "localhost" ∨ cfg.host.getD "localhost" = "127.0.0.1")
          ∧ (cfg.username.getD "").isEmpty = true)
    · exact absurd (by unfold create_executor; rw [if_pos hc]) h
    · unfold create_executor
      rw [if_neg hc]

/-- Helper for the buffering loop: feeding one complete newline-terminated
line emits exactly the pending buffer plus that line. -/
theorem sshEmit_append_line (l : List Char) :
    ∀ (buf rest : List Char), '\n' ∉ l →
      sshEmit buf (l ++ '\n' :: rest) = (buf.reverse ++ l) :: sshEmit [] rest := by
  induction l with
  | nil =>
    intro buf rest _
    simp [sshEmit]
  | cons c cs ih =>
    intro buf rest hl
    have hc : ¬ c = '\n' := fun h => hl (by simp [h])
    have hcs : '\n' ∉ cs := fun h => hl (List.mem_cons_of_mem _ h)
    have step : sshEmit buf ((c :: cs) ++ '\n' :: rest)
        = sshEmit (c :: buf) (cs ++ '\n' :: rest) := by
      simp [sshEmit, hc]
    rw [step, ih (c :: buf) rest hcs]
    simp

/-- The SSH follow loop reconstructs a line-oriented stream exactly: splitting
the newline-terminated encoding of a line list yields that list back. -/
theorem sshEmit_encode (ls : List (List Char)) (h : ∀ l ∈ ls, '\n' ∉ l) :
    sshEmit [] (encodeLines ls) = ls := by
  induction ls with
  | nil => rfl
  | cons l rest ih =>
    have h1 : '\n' ∉ l := h l (List.mem_cons_self _ _)
    have h2 : ∀ x ∈ rest, '\n' ∉ x := fun x hx => h x (List.mem_cons_of_mem _ hx)
    calc sshEmit [] (encodeLines (l :: rest))
        = sshEmit [] (l ++ '\n' :: encodeLines rest) := rfl
      _ = (List.reverse [] ++ l) :: sshEmit [] (encodeLines rest) :=
          sshEmit_append_line l [] (encodeLines rest) h1
      _ = l :: rest := by rw [ih h2]; simp

/-- Claim C2 counterexample: on a file that already holds the single line L1,
subscribing and then appending L2 delivers the pre-existing line L1 as well,
not exactly L2 — `tail -f` with no `-n` option replays the trailing lines of
the file. -/
theorem c2_counterexample :
    local_follow_delivered true ["L1"] ["L2"] = ["L1", "L2"]
    ∧ local_follow_delivered true ["L1"] ["L2"] ≠ ["L2"] := by decide

/-- Claim C2 (amended): a follow subscription delivers the last
min(n, 10) pre-existing lines of the file first (the default replay of the
`tail -f` command both executors spawn) and then each appended line; only on
a file empty at subscription time is exactly the appended line delivered.
The delivered sequence is always a suffix of the file, and the SSH variant's
newline-buffering loop reproduces the same line sequence from the byte
stream. -/
theorem follow_replays_trailing_lines (existing : List String) (l : String)
    (lines : List (List Char)) (hnl : ∀ x ∈ lines, '\n' ∉ x) :
    local_follow_delivered true existing [l]
        = existing.drop (existing.length - 10) ++ [l]
    ∧ local_follow_delivered true [] [l] = [l]
    ∧ (existing.length ≤ 10 → local_follow_delivered true existing [l] = existing ++ [l])
    ∧ List.IsSuffix (local_follow_delivered true existing [l]) (existing ++ [l])
    ∧ sshEmit [] (encodeLines lines) = lines := by
  refine ⟨rfl, rfl, ?_, ?_, sshEmit_encode lines hnl⟩
  · intro hlen
    have : existing.length - 10 = 0 := by omega
    simp [local_follow_delivered, tailDashF, this]
  · have hval : local_follow_delivered true existing [l]
        = existing.drop (existing.length - 10) ++ [l] := rfl
    rw [hval]
    exact ⟨existing.take (existing.length - 10), by
      rw [← List.append_assoc, List.take_append_drop]⟩

/-- Witness for `follow_replays_trailing_lines` on a one-line file and a
concrete two-line byte stream. -/
theorem follow_replays_trailing_lines_witness :
    local_follow_delivered true ["a"] ["b"] = ["a"] ++ ["b"]
    ∧ sshEmit [] (encodeLines [['x'], ['y']]) = [['x'], ['y']] :=
  ⟨(follow_replays_trailing_lines ["a"] "b" [['x'], ['y']] (by decide)).2.2.1 (by decide),
   (follow_replays_trailing_lines ["a"] "b" [['x'], ['y']] (by decide)).2.2.2.2⟩

/-- Fresh local session before any follow was started. -/
def c5_session_zero : LocalSession :=
  { tail_running := false, threads := [], tail_process := none }

/-- Claim C5 counterexample: starting a follow for callback 1 and then a
second follow for callback 2 on the same executor does not replace the first
subscription — an appended line is delivered to both callbacks, not only to
the new one. -/
theorem c5_counterexample :
    local_deliver (local_tail_file_follow (local_tail_file_follow c5_session_zero 1 100) 2 101)
        = [1, 2]
    ∧ local_deliver (local_tail_file_follow (local_tail_file_follow c5_session_zero 1 100) 2 101)
        ≠ [2] := by decide

/-- Claim C5 (amended): calling `tail_file_follow` while a follow is already
active does not stop or replace the first subscription: the shared running
flag is simply set again and a further reader thread is spawned, so after
the second call both the first and the second callback receive appended
lines; only `stop_tail` (clearing the shared flag) ends delivery, and it
ends it for all subscriptions at once. -/
theorem second_follow_keeps_first_subscription (s : LocalSession)
    (cb1 cb2 p1 p2 : Nat) (b : Bool) :
    cb1 ∈ local_deliver (local_tail_file_follow (local_tail_file_follow s cb1 p1) cb2 p2)
    ∧ cb2 ∈ local_deliver (local_tail_file_follow (local_tail_file_follow s cb1 p1) cb2 p2)
    ∧ (local_tail_file_follow (local_tail_file_follow s cb1 p1) cb2 p2).tail_running = true
    ∧ local_deliver
        (local_stop_tail b (local_tail_file_follow (local_tail_file_follow s cb1 p1) cb2 p2))
        = [] := by
  refine ⟨?_, ?_, rfl, rfl⟩ <;>
    simp [local_deliver, local_tail_file_follow]

/-- Collapsed form of `ssh_stop_tail`: whatever the channel state was, the
result has the running flag cleared and no channel. -/
theorem ssh_stop_tail_eq (b : Bool) (t : SSHSession) :
    ssh_stop_tail b t = { t with tail_running := false, tail_channel := none } := by
  cases t with
  | mk ca so tr th tc => cases tc <;> rfl

/-- Collapsed form of `ssh_disconnect`: every resource is released and the
reader threads list is the only surviving data. -/
theorem ssh_disconnect_eq (c1 c2 c3 : Bool) (t : SSHSession) :
    ssh_disconnect c1 c2 c3 t =
      { client_active := none, sftp_open := false, tail_running := false,
        threads := t.threads, tail_channel := none } := by
  cases t with
  | mk ca so tr th tc =>
    cases ca <;> cases so <;> cases tc <;>
      simp [ssh_disconnect, ssh_stop_tail]

/-- Claim C8: on both executor variants `stop_tail` is idempotent, its result
does not depend on whether the underlying terminate/close call fails (the
source swallows those exceptions, so the method never raises), it clears the
running flag, and the session stays usable (a later follow starts again);
`disconnect` first stops any active follow (running flag cleared, channel
closed), then releases the SFTP and SSH clients, is idempotent, never
raises (result independent of all close failures), and leaves the session
reporting not connected. -/
theorem stop_tail_disconnect_idempotent (s : LocalSession) (t : SSHSession)
    (b b2 c1 c2 c3 d1 d2 d3 : Bool) (cb p : Nat) :
    local_stop_tail b (local_stop_tail b2 s) = local_stop_tail b2 s
    ∧ local_stop_tail b s = local_stop_tail b2 s
    ∧ (local_stop_tail b s).tail_running = false
    ∧ local_disconnect b (local_disconnect b2 s) = local_disconnect b2 s
    ∧ (local_tail_file_follow (local_stop_tail b s) cb p).tail_running = true
    ∧ ssh_stop_tail b (ssh_stop_tail b2 t) = ssh_stop_tail b2 t
    ∧ ssh_stop_tail b t = ssh_stop_tail b2 t
    ∧ (ssh_stop_tail b t).tail_running = false
    ∧ (ssh_stop_tail b t).tail_channel = none
    ∧ ssh_disconnect c1 c2 c3 (ssh_disconnect d1 d2 d3 t) = ssh_disconnect d1 d2 d3 t
    ∧ ssh_disconnect c1 c2 c3 t = ssh_disconnect d1 d2 d3 t
    ∧ (ssh_disconnect c1 c2 c3 t).tail_running = false
    ∧ (ssh_disconnect c1 c2 c3 t).tail_channel = none
    ∧ (ssh_disconnect c1 c2 c3 t).sftp_open = false
    ∧ (ssh_disconnect c1 c2 c3 t).client_active = none
    ∧ ssh_is_connected (ssh_disconnect c1 c2 c3 t) = false := by
  refine ⟨rfl, rfl, rfl, rfl, rfl, ?_, ?_, ?_, ?_, ?_, ?_, ?_, ?_, ?_, ?_, ?_⟩ <;>
    simp [ssh_stop_tail_eq, ssh_disconnect_eq, ssh_is_connected]

/-- Witness for `create_executor_spec` at a concrete remote configuration:
host set to a server name with a username, so an `SSHExecutor` is returned
with the defaulted port and the fallback ssh_key_path. -/
theorem create_executor_spec_witness :
    create_executor
        { is_local := none, host := some "db.example.org", username := some "odoo",
          port := none, password := none, key_path := none,
          ssh_key_path := some "/home/odoo/.ssh/id_rsa" }
      = .sshExec "db.example.org" 22 (some "odoo") none (some "/home/odoo/.ssh/id_rsa") :=
  (create_executor_spec
      { is_local := none, host := some "db.example.org", username := some "odoo",
        port := none, password := none, key_path := none,
        ssh_key_path := some "/home/odoo/.ssh/id_rsa" }).2 (by decide)

/-! ## Claim theorems for the operation pipelines -/

/-- A direct Restore request whose target is not restore-allowed but which
passes every check `_run_restore` actually performs. -/
def c1_request : RestoreRequest :=
  { backup_file := "/backups/prod_20260101.zip", backup_file_on_disk := true,
    db_name := some "proddb", restore_type := "complete", is_production := false,
    allow_restore := false, confirm_overwrite := true, confirm_final := true }

/-- Claim C1 counterexample: a Restore request against a target not marked
restore-allowed is not rejected on the direct Restore path — the validation
phase of `_run_restore` falls through and the worker issues the mutating
restore commands against the target, because no check in `_run_restore`
reads the `allow_restore` flag. -/
theorem c1_counterexample :
    c1_request.allow_restore = false
    ∧ run_restore_gate c1_request = .proceed
    ∧ run_restore_pipeline c1_request ≠ [] := by decide

/-- Claim C1 (amended): the restore-allowed gate is enforced only on the
Copy (backup-and-restore) path: `_run_backup_restore` rejects a destination
not marked restore-allowed before its worker is started, so no mutating
command reaches the destination; the direct Restore path performs no such
check — its validation outcome is entirely independent of the
`allow_restore` flag. -/
theorem restore_gate_only_on_copy_path (q : CopyRequest) (r : RestoreRequest) (b : Bool)
    (h : q.dest_allow_restore = false) :
    run_copy_gate q ≠ .proceed
    ∧ run_copy_pipeline q = []
    ∧ run_restore_gate { r with allow_restore := b } = run_restore_gate r := by
  have hg : run_copy_gate q ≠ .proceed := by
    unfold run_copy_gate
    split_ifs <;> simp_all
  refine ⟨hg, ?_, rfl⟩
  unfold run_copy_pipeline
  cases hc : run_copy_gate q with
  | proceed => exact absurd hc hg
  | rejected m => rfl

/-- A Copy request whose destination is not restore-allowed but whose other
checks all pass. -/
def c1_copy_request : CopyRequest :=
  { dest_selection := "Other (db @ host)", dest_in_map := true, dest_found := true,
    source_db := some "srcdb", dest_db := some "dstdb", br_type := "complete",
    dest_allow_restore := false, dest_is_production := false,
    confirm_production := true, confirm_standard := true }

/-- Witness for `restore_gate_only_on_copy_path` at a concrete Copy request
with a restore-not-allowed destination. -/
theorem restore_gate_only_on_copy_path_witness :
    run_copy_gate c1_copy_request ≠ .proceed
    ∧ run_copy_pipeline c1_copy_request = [] :=
  ⟨(restore_gate_only_on_copy_path c1_copy_request c1_request true rfl).1,
   (restore_gate_only_on_copy_path c1_copy_request c1_request true rfl).2.1⟩

/-- Claim C4: evaluation at the failing input — a Copy whose backup leg
produced the artifact and whose restore leg then failed.  The artifact does
remain on local disk, but the failure's captured log text contains no line
carrying the preserved artifact path: `backup_path` is assigned only by the
normal return of `bench.backup_and_restore`, so in the `except` handler it
is still None and the `if backup_path:` branch that would log the path is
dead.  Only the failed source record (with no backup file) is persisted. -/
theorem c4_restore_leg_failure_eval :
    "/backups/srcdb_20260101_120000.zip"
        ∈ (backup_then_restore_fails "/backups/srcdb_20260101_120000.zip"
            "pg_restore: connection refused").artifacts_on_disk
    ∧ mentionsPreservedBackup
        (do_backup_restore []
          (backup_then_restore_fails "/backups/srcdb_20260101_120000.zip"
            "pg_restore: connection refused").result 42).log_lines = false
    ∧ (do_backup_restore []
          (backup_then_restore_fails "/backups/srcdb_20260101_120000.zip"
            "pg_restore: connection refused").result 42).saved
        = [{ target := "source", status := "failed", backup_file := none }] := by decide

/-- Claim C7 counterexample: a Copy that fails persists only one operation
log record — against the source — not one per target. -/
theorem c7_counterexample :
    (do_backup_restore [] (CoreResult.raised "restore failed") 7).saved
      = [{ target := "source", status := "failed", backup_file := none }]
    ∧ (do_backup_restore [] (CoreResult.raised "restore failed") 7).saved.length ≠ 2 := by
  decide

/-- Claim C7 (amended): a Copy that ends in success persists exactly two
finalized records, one against the source and one against the destination,
both carrying the artifact path; a Copy that ends in failure persists
exactly one failed record, against the source only. -/
theorem copy_persists_logs_per_outcome (headerLines : List LogLine) (p msg : String)
    (e : Nat) :
    (do_backup_restore headerLines (CoreResult.ret p) e).saved
      = [{ target := "source", status := "success", backup_file := some p },
         { target := "dest", status := "success", backup_file := some p }]
    ∧ (do_backup_restore headerLines (CoreResult.raised msg) e).saved
      = [{ target := "source", status := "failed", backup_file := none }] :=
  ⟨rfl, rfl⟩

/-- A complete-scope Backup request with no configured filestore path whose
operator declines the degrade dialog. -/
def c6_request : BackupRequest :=
  { db_name := some "proddb", backup_type := "complete", filestore_path := none,
    confirm_degrade := false, backup_dir_on_disk := true, mkdir_ok := true }

/-- Claim C6 counterexample: a complete-scope Backup with no filestore path
does not always degrade to a database-only backup — when the operator
declines the warning dialog the request is abandoned and no backup runs. -/
theorem c6_counterexample :
    run_backup_gate c6_request = .declinedDegrade
    ∧ run_backup_gate c6_request ≠ .run "db_only" := by decide

/-- Claim C6 (amended): a complete-scope Backup with no configured filestore
path never hard-fails and never silently degrades: a warning dialog is
shown, and the operation degrades to a database-only backup exactly when the
operator confirms; when the operator declines, the request is abandoned
without error (and in neither case is it rejected for a missing database or
a directory failure, given the backup directory exists). -/
theorem backup_degrade_requires_confirmation (r : BackupRequest)
    (hdb : (r.db_name.getD "").isEmpty = false)
    (ht : r.backup_type = "complete")
    (hfs : (r.filestore_path.getD "").isEmpty = true)
    (hdir : r.backup_dir_on_disk = true) :
    (r.confirm_degrade = true → run_backup_gate r = .run "db_only")
    ∧ (r.confirm_degrade = false → run_backup_gate r = .declinedDegrade)
    ∧ run_backup_gate r ≠ .mkdirFailed
    ∧ run_backup_gate r ≠ .noDatabase := by
  have hbt : r.backup_type ≠ "db_only" := by rw [ht]; decide
  refine ⟨?_, ?_, ?_, ?_⟩
  · intro hc
    simp [run_backup_gate, finish_backup_gate, hdb, hbt, hfs, hdir, hc]
  · intro hc
    simp [run_backup_gate, hdb, hbt, hfs, hc]
  · cases hc : r.confirm_degrade <;>
      simp [run_backup_gate, finish_backup_gate, hdb, hbt, hfs, hdir, hc]
  · cases hc : r.confirm_degrade <;>
      simp [run_backup_gate, finish_backup_gate, hdb, hbt, hfs, hdir, hc]

/-- The same degraded Backup request with the operator confirming. -/
def c6_confirm_request : BackupRequest :=
  { db_name := some "proddb", backup_type := "complete", filestore_path := none,
    confirm_degrade := true, backup_dir_on_disk := true, mkdir_ok := true }

/-- Witness for `backup_degrade_requires_confirmation` at the confirming
request: the backup runs database-only. -/
theorem backup_degrade_requires_confirmation_witness :
    run_backup_gate c6_confirm_request = .run "db_only" :=
  (backup_degrade_requires_confirmation c6_confirm_request (by decide) rfl (by decide)
    rfl).1 rfl

end OdooBench
